/-
Verification of the Modbus Serial Line / RTU client core (rtu.go of
CreatorsLab/go-modbus) against its natural-language specification.

The Go source is shallowly embedded: byte buffers become `List Nat` whose
entries are kept below 256 by masking at each store (Go's `[]byte` typing),
`uint16` arithmetic stays inside `Nat` (all intermediate values are proved
or kept below 2^16), and the two runtime panics the Go code can hit
(out-of-range buffer index in `GenerateRTUFrame`, negative slice bound in
`viaRTU`) are modelled as `none` results.
-/
import Mathlib

set_option autoImplicit false

namespace ModbusClient

/-! ### Constants

`rtu.go` references named constants declared elsewhere in the repository
(its `modbus.go` is not part of the sources under verification), so their
values are modelled from the specification. -/

/-- Modelled from the spec: the standard Modbus "write single coil" function
code (0x05); `modbus.go`, which declares it, is not among the sources. -/
def FUNCTION_WRITE_SINGLE_COIL : Nat := 0x05

/-- Modelled from the spec: the standard Modbus "write single register"
function code (0x06); declared in the missing `modbus.go`. -/
def FUNCTION_WRITE_SINGLE_REGISTER : Nat := 0x06

/-- Modelled from the spec: the standard Modbus "write multiple registers"
function code (0x10); declared in the missing `modbus.go`. -/
def FUNCTION_WRITE_MULTIPLE_REGISTERS : Nat := 0x10

/-- Modelled from the spec: the maximum RTU application-data-unit size
(256 bytes for Modbus RTU); declared in the missing `modbus.go`. -/
def RTU_FRAME_MAXSIZE : Nat := 256

/-- Wire exception code 0x01: illegal function (spec §6). -/
def EXCEPTION_ILLEGAL_FUNCTION : Nat := 0x01

/-- Wire exception code 0x02: illegal data address (spec §6). -/
def EXCEPTION_DATA_ADDRESS : Nat := 0x02

/-- Wire exception code 0x03: illegal data value (spec §6). -/
def EXCEPTION_DATA_VALUE : Nat := 0x03

/-- Wire exception code 0x04: slave device failure (spec §6). -/
def EXCEPTION_SLAVE_DEVICE_FAILURE : Nat := 0x04

/-- Modelled from the spec: implementation-defined catch-all key for the
generic "unspecified" exception (not a slave-sent wire value, spec §6). -/
def EXCEPTION_UNSPECIFIED : Nat := 0x00

/-- Modelled from the spec: implementation-defined key for the locally
detected checksum-mismatch exception (not a slave-sent wire value). -/
def EXCEPTION_BAD_CHECKSUM : Nat := 0xFF

/-! ### Error taxonomy -/

/-- Semantic error kinds a transaction can report (spec §7): admission /
protocol exceptions, the locally detected checksum failure, and transport
errors carrying their opaque cause. -/
inductive ModbusError where
  | illegalFunction
  | dataAddress
  | dataValue
  | slaveDeviceFailure
  | unspecified
  | badChecksum
  | transport (cause : Nat)
  deriving DecidableEq, Repr

/-- Modelled from the spec: the process-wide read-only exception table
`MODBUS_EXCEPTIONS` (declared in the missing `modbus.go`), mapping an
exception key to its semantic error kind. -/
def MODBUS_EXCEPTIONS (code : Nat) : ModbusError :=
  if code = EXCEPTION_ILLEGAL_FUNCTION then .illegalFunction
  else if code = EXCEPTION_DATA_ADDRESS then .dataAddress
  else if code = EXCEPTION_DATA_VALUE then .dataValue
  else if code = EXCEPTION_SLAVE_DEVICE_FAILURE then .slaveDeviceFailure
  else if code = EXCEPTION_BAD_CHECKSUM then .badChecksum
  else .unspecified

/-! ### Checksum engine (`crc`, rtu.go lines 28-42) -/

/-- The inner 8-round loop body of `crc`: `j` remaining rounds applied to
accumulator `c`. Each round shifts right once, XORing with 0xA001 when the
low bit was set. -/
def crcInner : Nat → Nat → Nat
  | c, 0 => c
  | c, Nat.succ j =>
      crcInner (if c &&& 0x0001 > 0 then (c >>> 1) ^^^ 0xA001 else c >>> 1) j

/-- The outer loop of `crc`: fold the remaining input bytes into the
accumulator, XORing each byte in before the 8 rounds. -/
def crcLoop : Nat → List Nat → Nat
  | c, [] => c
  | c, b :: rest => crcLoop (crcInner (c ^^^ b) 8) rest

/-- `crc` of rtu.go: 16-bit cyclic redundancy check of a byte sequence,
accumulator initialised to 0xFFFF. -/
def crc (data : List Nat) : Nat :=
  crcLoop 0xffff data

/-! ### Frame codec (`GenerateRTUFrame`, rtu.go lines 47-91) -/

/-- The `RTUFrame` request-frame record (declared in the missing
`modbus.go`; its five fields are those rtu.go reads: slave address and
function code are bytes, start register and register count are 16-bit
words, the payload is a byte sequence). -/
structure RTUFrame where
  SlaveAddress : Nat
  FunctionCode : Nat
  StartRegister : Nat
  NumberOfRegisters : Nat
  Data : List Nat
  deriving DecidableEq, Repr

/-- One Go store `packet[i] = byte(v)` into a fixed-size byte buffer:
out-of-range `i` is the runtime panic, modelled as `none`; the stored
value is truncated to a byte as Go's `byte` conversion does. -/
def store (p : Option (List Nat)) (i v : Nat) : Option (List Nat) :=
  match p with
  | none => none
  | some l => if i < l.length then some (l.set i (v % 256)) else none

/-- The data-copy loop of `GenerateRTUFrame`
(`packet[bytesUsed+i] = frame.Data[i]`), storing `ds` starting at index
`i`. -/
def storeList (p : Option (List Nat)) (i : Nat) (ds : List Nat) :
    Option (List Nat) :=
  match ds with
  | [] => p
  | b :: rest => storeList (store p i b) (i + 1) rest

/-- The final `return packet[:bytesUsed]` of `GenerateRTUFrame`, lifted
over the panic-tracking `Option`. -/
def takeBytes (p : Option (List Nat)) (u : Nat) : Option (List Nat) :=
  match p with
  | none => none
  | some packet => some (packet.take u)

/-- Lines 84-90 of rtu.go: compute the CRC over the `bytesUsed` bytes
written so far, append it low byte first, and trim the packet. -/
def finishCRC (p : Option (List Nat)) (bytesUsed : Nat) : Option (List Nat) :=
  match p with
  | none => none
  | some packet =>
      let packetCrc := crc (packet.take bytesUsed)
      takeBytes
        (store (store (some packet) bytesUsed (packetCrc &&& 0xff))
          (bytesUsed + 1) (packetCrc >>> 8))
        (bytesUsed + 2)

/-- `GenerateRTUFrame` of rtu.go: encode a request frame into its ADU.
`none` models the Go index-out-of-range panic that a payload too large
for the fixed-size packet buffer provokes. -/
def GenerateRTUFrame (frame : RTUFrame) : Option (List Nat) :=
  let insertNumOfRegister :=
    ¬(frame.FunctionCode = FUNCTION_WRITE_SINGLE_COIL ∨
      frame.FunctionCode = FUNCTION_WRITE_SINGLE_REGISTER)
  let insertDataLen := frame.FunctionCode = FUNCTION_WRITE_MULTIPLE_REGISTERS
  let dataLen := frame.Data.length
  let packetLen := if dataLen > 0 then RTU_FRAME_MAXSIZE else 9
  let p := store (some (List.replicate packetLen 0)) 0 frame.SlaveAddress
  let p := store p 1 frame.FunctionCode
  let p := store p 2 (frame.StartRegister >>> 8)
  let p := store p 3 (frame.StartRegister &&& 0xff)
  let bytesUsed := 4
  let (p, bytesUsed) :=
    if insertNumOfRegister then
      (store (store p bytesUsed (frame.NumberOfRegisters >>> 8))
        (bytesUsed + 1) (frame.NumberOfRegisters &&& 0xff), bytesUsed + 2)
    else (p, bytesUsed)
  let (p, bytesUsed) :=
    if insertDataLen then (store p bytesUsed dataLen, bytesUsed + 1)
    else (p, bytesUsed)
  let p := storeList p bytesUsed frame.Data
  finishCRC p (bytesUsed + dataLen)

/-! ### Transaction protocol (`viaRTU`, rtu.go lines 119-196) -/

/-- The observable behaviour of the serial transport during one
transaction: whether the `Write` call errors, whether the `Read` call
errors, and the bytes the `Read` delivers into the response buffer.
Transport errors are opaque causes, modelled as numeric tags. -/
structure Transport where
  writeErr : Option Nat
  readErr : Option Nat
  received : List Nat
  deriving DecidableEq, Repr

/-- One transport-level I/O side effect of a transaction. -/
inductive IOEvent where
  | write (adu : List Nat)
  | read
  deriving DecidableEq, Repr

/-- The number of bytes `Read` reports: the transport cannot deliver more
than the `RTU_FRAME_MAXSIZE` response buffer holds. -/
def readCount (t : Transport) : Nat :=
  (t.received.take RTU_FRAME_MAXSIZE).length

/-- The 256-byte response buffer after the `Read` call: the delivered
bytes (a byte-typed buffer, hence the mask) followed by the untouched
zero-initialised remainder. -/
def responseBuf (t : Transport) : List Nat :=
  let r := (t.received.take RTU_FRAME_MAXSIZE).map (fun b => b % 256)
  r ++ List.replicate (RTU_FRAME_MAXSIZE - r.length) 0

/-- Result of one `viaRTU` call: the returned bytes and error
(`ret = none` models the Go panic on a response shorter than two bytes,
or a panic inside frame generation), the transport I/O events performed,
and the debug-log lines emitted. -/
structure RTUResult where
  ret : Option (List Nat × Option ModbusError)
  io : List IOEvent
  log : List String
  deriving DecidableEq, Repr

/-- Lines 159-192 of rtu.go: validate and classify a successfully read
response — exception reply, checksum failure, or success. Factored out of
`viaRTU` for modular reasoning; the code is the verbatim continuation of
the read-succeeded path. -/
def classifyResponse (debug : Bool) (slaveAddress functionCode : Nat)
    (t : Transport) (adu : List Nat) : RTUResult :=
  let logTx := if debug then ["Tx"] else []
  let n := readCount t
  let response := responseBuf t
  let io := [IOEvent.write adu, IOEvent.read]
  if response.getD 0 0 ≠ slaveAddress ∨ response.getD 1 0 ≠ functionCode then
    let logInv := logTx ++ if debug then ["RTU Response Invalid"] else []
    if response.getD 0 0 = slaveAddress ∧
        (response.getD 1 0) &&& 0x7f = functionCode then
      if response.getD 2 0 = EXCEPTION_ILLEGAL_FUNCTION then
        { ret := some ([], some (MODBUS_EXCEPTIONS EXCEPTION_ILLEGAL_FUNCTION)),
          io := io, log := logInv }
      else if response.getD 2 0 = EXCEPTION_DATA_ADDRESS then
        { ret := some ([], some (MODBUS_EXCEPTIONS EXCEPTION_DATA_ADDRESS)),
          io := io, log := logInv }
      else if response.getD 2 0 = EXCEPTION_DATA_VALUE then
        { ret := some ([], some (MODBUS_EXCEPTIONS EXCEPTION_DATA_VALUE)),
          io := io, log := logInv }
      else if response.getD 2 0 = EXCEPTION_SLAVE_DEVICE_FAILURE then
        { ret := some ([], some (MODBUS_EXCEPTIONS EXCEPTION_SLAVE_DEVICE_FAILURE)),
          io := io, log := logInv }
      else
        { ret := some ([], some (MODBUS_EXCEPTIONS EXCEPTION_UNSPECIFIED)),
          io := io, log := logInv }
    else
      { ret := some ([], some (MODBUS_EXCEPTIONS EXCEPTION_UNSPECIFIED)),
        io := io, log := logInv }
  else
    if n < 2 then
      { ret := none, io := io, log := logTx }
    else
      let responseCrc := crc (response.take (n - 2))
      if response.getD (n - 2) 0 ≠ responseCrc &&& 0xff ∨
          response.getD (n - 1) 0 ≠ responseCrc >>> 8 then
        { ret := some (response.take n,
            some (MODBUS_EXCEPTIONS EXCEPTION_BAD_CHECKSUM)),
          io := io,
          log := logTx ++ if debug then ["RTU Response Invalid: Bad Checksum"] else [] }
      else
        { ret := some (response.take n, none), io := io, log := logTx }

/-- `viaRTU` of rtu.go: admission-check the function code, encode and
transmit the frame, read the reply, classify it (exception reply,
checksum failure, success). The connection context's slave address and
debug flag are passed explicitly; the transport's behaviour is the
`Transport` argument. -/
def viaRTU (debug : Bool) (slaveAddress : Nat) (t : Transport)
    (fnValidator : Nat → Bool) (functionCode : Nat)
    (startRegister numRegisters : Nat) (data : List Nat) : RTUResult :=
  if fnValidator functionCode then
    let frame : RTUFrame :=
      { SlaveAddress := slaveAddress, FunctionCode := functionCode,
        StartRegister := startRegister, NumberOfRegisters := numRegisters,
        Data := data }
    match GenerateRTUFrame frame with
    | none => { ret := none, io := [], log := [] }
    | some adu =>
      let logTx := if debug then ["Tx"] else []
      match t.writeErr with
      | some cause =>
          { ret := some ([], some (.transport cause)), io := [.write adu],
            log := logTx ++ if debug then ["RTU Write Err"] else [] }
      | none =>
        match t.readErr with
        | some cause =>
            { ret := some ([], some (.transport cause)),
              io := [.write adu, .read],
              log := logTx ++ if debug then ["RTU Read Err"] else [] }
        | none => classifyResponse debug slaveAddress functionCode t adu
  else
    { ret := some ([], some (MODBUS_EXCEPTIONS EXCEPTION_ILLEGAL_FUNCTION)),
      io := [], log := [] }

/-! ### Specification-side checksum

A second rendering of the checksum algorithm, written from the spec's
words (§4.1) rather than from the Go loops, for the refinement claim. -/

/-- Modelled from the spec: one shift round — "if the low bit is set,
shift right one bit and XOR with 0xA001; otherwise shift right one bit
without XOR". -/
def crcSpecRound (c : Nat) : Nat :=
  if c % 2 = 1 then (c / 2) ^^^ 0xA001 else c / 2

/-- Modelled from the spec: process one input byte — "XOR it into the low
byte of the accumulator, then perform 8 rounds". -/
def crcSpecStep (c b : Nat) : Nat :=
  crcSpecRound^[8] (c ^^^ b)

/-- Modelled from the spec: the whole checksum — "initialize accumulator
to 0xFFFF; for each input byte" run `crcSpecStep`. -/
def crcSpec (data : List Nat) : Nat :=
  data.foldl crcSpecStep 0xFFFF

/-! ### Layout descriptions used in the claim statements -/

/-- The list of values `GenerateRTUFrame` stores before the checksum,
masked to bytes as the byte-typed packet buffer stores them. -/
def bodyOf (f : RTUFrame) : List Nat :=
  ([f.SlaveAddress, f.FunctionCode, f.StartRegister >>> 8, f.StartRegister &&& 0xff]
    ++ (if f.FunctionCode = FUNCTION_WRITE_SINGLE_COIL ∨
          f.FunctionCode = FUNCTION_WRITE_SINGLE_REGISTER then []
        else [f.NumberOfRegisters >>> 8, f.NumberOfRegisters &&& 0xff])
    ++ (if f.FunctionCode = FUNCTION_WRITE_MULTIPLE_REGISTERS then [f.Data.length]
        else [])
    ++ f.Data).map (fun b => b % 256)

/-- The packet buffer size `GenerateRTUFrame` allocates for a frame. -/
def packetLenOf (f : RTUFrame) : Nat :=
  if 0 < f.Data.length then RTU_FRAME_MAXSIZE else 9

/-- The fully encoded ADU a frame should produce: body, then the CRC of
the body in low-byte-first order. -/
def aduOf (f : RTUFrame) : List Nat :=
  bodyOf f ++ [crc (bodyOf f) &&& 0xff, (crc (bodyOf f) >>> 8) % 256]

/-! ### Lemmas about the store primitives -/

theorem store_none (i v : Nat) : store none i v = none := rfl

theorem store_some (l : List Nat) (i v : Nat) :
    store (some l) i v = if i < l.length then some (l.set i (v % 256)) else none := rfl

theorem storeList_none (ds : List Nat) (i : Nat) : storeList none i ds = none := by
  induction ds generalizing i with
  | nil => rfl
  | cons b rest ih => simp [storeList, store_none, ih]

theorem storeList_singleton (p : Option (List Nat)) (i v : Nat) :
    storeList p i [v] = store p i v := rfl

theorem takeBytes_none (u : Nat) : takeBytes none u = none := rfl

theorem takeBytes_some (packet : List Nat) (u : Nat) :
    takeBytes (some packet) u = some (packet.take u) := rfl

theorem finishCRC_none (u : Nat) : finishCRC none u = none := rfl

theorem finishCRC_some (packet : List Nat) (u : Nat) :
    finishCRC (some packet) u =
      takeBytes
        (store (store (some packet) u (crc (packet.take u) &&& 0xff))
          (u + 1) (crc (packet.take u) >>> 8))
        (u + 2) := rfl

theorem storeList_storeList (xs : List Nat) (p : Option (List Nat)) (i j : Nat)
    (ys : List Nat) (hj : j = i + xs.length) :
    storeList (storeList p i xs) j ys = storeList p i (xs ++ ys) := by
  induction xs generalizing p i with
  | nil => simp only [List.length_nil, Nat.add_zero] at hj; subst hj; simp [storeList]
  | cons b rest ih =>
      simp only [storeList, List.cons_append]
      exact ih (store p i b) (i + 1) (by simp at hj; omega)

theorem store_build (pre : List Nat) (m v i : Nat) (hi : i = pre.length) (hm : 0 < m) :
    store (some (pre ++ List.replicate m 0)) i v =
      some ((pre ++ [v % 256]) ++ List.replicate (m - 1) 0) := by
  obtain ⟨k, rfl⟩ : ∃ k, m = k + 1 := ⟨m - 1, by omega⟩
  rw [store_some, if_pos (by simp [hi]), List.set_append, if_neg (by omega)]
  subst hi
  simp [List.replicate_succ]

theorem storeList_build (ds : List Nat) : ∀ (pre : List Nat) (m i : Nat),
    i = pre.length → ds.length ≤ m →
    storeList (some (pre ++ List.replicate m 0)) i ds =
      some ((pre ++ ds.map (fun b => b % 256)) ++ List.replicate (m - ds.length) 0) := by
  induction ds with
  | nil => intro pre m i hi hm; simp [storeList]
  | cons b rest ih =>
      intro pre m i hi hm
      simp only [List.length_cons] at hm
      obtain ⟨k, rfl⟩ : ∃ k, m = k + 1 := ⟨m - 1, by omega⟩
      rw [storeList, store_build pre (k + 1) b i hi (by omega)]
      simp only [Nat.add_sub_cancel]
      rw [ih (pre ++ [b % 256]) k (i + 1) (by simp [hi]) (by omega)]
      simp [List.append_assoc]

theorem storeList_replicate (ds : List Nat) (m : Nat) (h : ds.length ≤ m) :
    storeList (some (List.replicate m 0)) 0 ds =
      some (ds.map (fun b => b % 256) ++ List.replicate (m - ds.length) 0) := by
  simpa using storeList_build ds [] m 0 rfl h

theorem take_build (full : List Nat) (m i : Nat) (hi : i = full.length) :
    (full ++ List.replicate m 0).take i = full := by
  subst hi; exact List.take_left full _


theorem generate_eq_some (f : RTUFrame) (h : (bodyOf f).length + 2 ≤ packetLenOf f) :
    GenerateRTUFrame f = some (aduOf f) := by
  obtain ⟨a, fc, s, nr, data⟩ := f
  by_cases h56 : fc = FUNCTION_WRITE_SINGLE_COIL ∨ fc = FUNCTION_WRITE_SINGLE_REGISTER
  · have h16 : ¬fc = FUNCTION_WRITE_MULTIPLE_REGISTERS := by
      rcases h56 with rfl | rfl <;> decide
    simp only [bodyOf, packetLenOf, List.length_map, List.length_append, h56, h16,
      if_true, if_false, List.length_nil, List.length_cons] at h
    simp only [GenerateRTUFrame, h56, h16, not_true, if_true, if_false]
    simp only [← storeList_singleton]
    simp [storeList_storeList]
    have hlen : (a :: fc :: s >>> 8 :: (s &&& 255) :: data).length ≤
        (if 0 < data.length then RTU_FRAME_MAXSIZE else 9) := by
      simp only [List.length_cons]
      omega
    rw [storeList_replicate _ _ hlen, finishCRC_some]
    set MAP := List.map (fun b => b % 256) (a :: fc :: s >>> 8 :: (s &&& 255) :: data) with hMAP
    set P := (if 0 < data.length then RTU_FRAME_MAXSIZE else 9) with hP
    set M := P - (a :: fc :: s >>> 8 :: (s &&& 255) :: data).length with hM
    have hMAPlen : MAP.length = 4 + data.length := by
      rw [hMAP]; simp only [List.length_map, List.length_cons]; omega
    have hMlen : 2 ≤ M := by
      rw [hM]; simp only [List.length_cons]; omega
    rw [take_build MAP M (4 + data.length) (by omega)]
    rw [store_build MAP M (crc MAP &&& 255) (4 + data.length) (by omega) (by omega)]
    rw [store_build (MAP ++ [(crc MAP &&& 255) % 256]) (M - 1) (crc MAP >>> 8)
      (4 + data.length + 1) (by simp only [List.length_append, List.length_cons, List.length_nil]; omega)
      (by omega)]
    rw [takeBytes_some]
    rw [take_build ((MAP ++ [(crc MAP &&& 255) % 256]) ++ [(crc MAP >>> 8) % 256]) (M - 1 - 1)
      (4 + data.length + 2) (by simp only [List.length_append, List.length_cons, List.length_nil]; omega)]
    have hmod : (crc MAP &&& 255) % 256 = crc MAP &&& 255 :=
      Nat.mod_eq_of_lt (lt_of_le_of_lt Nat.and_le_right (by norm_num))
    simp [aduOf, bodyOf, h56, h16, hMAP, hmod]
    exact lt_of_le_of_lt Nat.and_le_right (by norm_num)
  · by_cases h16 : fc = FUNCTION_WRITE_MULTIPLE_REGISTERS
    · have hno : ¬(FUNCTION_WRITE_MULTIPLE_REGISTERS = FUNCTION_WRITE_SINGLE_COIL ∨
          FUNCTION_WRITE_MULTIPLE_REGISTERS = FUNCTION_WRITE_SINGLE_REGISTER) := by decide
      subst h16
      simp only [bodyOf, packetLenOf, List.length_map, List.length_append, hno,
        eq_self_iff_true, if_true, if_false, List.length_nil, List.length_cons] at h
      simp only [GenerateRTUFrame, hno, eq_self_iff_true, not_false_iff, if_true, if_false]
      simp only [← storeList_singleton]
      simp [storeList_storeList]
      have hlen : (a :: FUNCTION_WRITE_MULTIPLE_REGISTERS :: s >>> 8 :: (s &&& 255) :: nr >>> 8 :: (nr &&& 255) :: data.length :: data).length ≤
          (if 0 < data.length then RTU_FRAME_MAXSIZE else 9) := by
        simp only [List.length_cons]
        omega
      rw [storeList_replicate _ _ hlen, finishCRC_some]
      set MAP := List.map (fun b => b % 256)
        (a :: FUNCTION_WRITE_MULTIPLE_REGISTERS :: s >>> 8 :: (s &&& 255) :: nr >>> 8 :: (nr &&& 255) :: data.length :: data) with hMAP
      set P := (if 0 < data.length then RTU_FRAME_MAXSIZE else 9) with hP
      set M := P - (a :: FUNCTION_WRITE_MULTIPLE_REGISTERS :: s >>> 8 :: (s &&& 255) :: nr >>> 8 :: (nr &&& 255) :: data.length :: data).length with hM
      have hMAPlen : MAP.length = 7 + data.length := by
        rw [hMAP]; simp only [List.length_map, List.length_cons]; omega
      have hMlen : 2 ≤ M := by
        rw [hM]; simp only [List.length_cons]; omega
      rw [take_build MAP M (7 + data.length) (by omega)]
      rw [store_build MAP M (crc MAP &&& 255) (7 + data.length) (by omega) (by omega)]
      rw [store_build (MAP ++ [(crc MAP &&& 255) % 256]) (M - 1) (crc MAP >>> 8)
        (7 + data.length + 1) (by simp only [List.length_append, List.length_cons, List.length_nil]; omega)
        (by omega)]
      rw [takeBytes_some]
      rw [take_build ((MAP ++ [(crc MAP &&& 255) % 256]) ++ [(crc MAP >>> 8) % 256]) (M - 1 - 1)
        (7 + data.length + 2) (by simp only [List.length_append, List.length_cons, List.length_nil]; omega)]
      have hmod : (crc MAP &&& 255) % 256 = crc MAP &&& 255 :=
        Nat.mod_eq_of_lt (lt_of_le_of_lt Nat.and_le_right (by norm_num))
      simp [aduOf, bodyOf, hno, hMAP, hmod]
      exact lt_of_le_of_lt Nat.and_le_right (by norm_num)
    · push_neg at h56
      obtain ⟨h5, h6⟩ := h56
      simp only [bodyOf, packetLenOf, List.length_map, List.length_append, h5, h6, h16,
        or_self, if_false, List.length_nil, List.length_cons] at h
      simp only [GenerateRTUFrame, h5, h6, h16, or_self, not_false_iff, if_true, if_false]
      simp only [← storeList_singleton]
      simp [storeList_storeList]
      have hlen : (a :: fc :: s >>> 8 :: (s &&& 255) :: nr >>> 8 :: (nr &&& 255) :: data).length ≤
          (if 0 < data.length then RTU_FRAME_MAXSIZE else 9) := by
        simp only [List.length_cons]
        omega
      rw [storeList_replicate _ _ hlen, finishCRC_some]
      set MAP := List.map (fun b => b % 256)
        (a :: fc :: s >>> 8 :: (s &&& 255) :: nr >>> 8 :: (nr &&& 255) :: data) with hMAP
      set P := (if 0 < data.length then RTU_FRAME_MAXSIZE else 9) with hP
      set M := P - (a :: fc :: s >>> 8 :: (s &&& 255) :: nr >>> 8 :: (nr &&& 255) :: data).length with hM
      have hMAPlen : MAP.length = 6 + data.length := by
        rw [hMAP]; simp only [List.length_map, List.length_cons]; omega
      have hMlen : 2 ≤ M := by
        rw [hM]; simp only [List.length_cons]; omega
      rw [take_build MAP M (6 + data.length) (by omega)]
      rw [store_build MAP M (crc MAP &&& 255) (6 + data.length) (by omega) (by omega)]
      rw [store_build (MAP ++ [(crc MAP &&& 255) % 256]) (M - 1) (crc MAP >>> 8)
        (6 + data.length + 1) (by simp only [List.length_append, List.length_cons, List.length_nil]; omega)
        (by omega)]
      rw [takeBytes_some]
      rw [take_build ((MAP ++ [(crc MAP &&& 255) % 256]) ++ [(crc MAP >>> 8) % 256]) (M - 1 - 1)
        (6 + data.length + 2) (by simp only [List.length_append, List.length_cons, List.length_nil]; omega)]
      have hmod : (crc MAP &&& 255) % 256 = crc MAP &&& 255 :=
        Nat.mod_eq_of_lt (lt_of_le_of_lt Nat.and_le_right (by norm_num))
      simp [aduOf, bodyOf, h5, h6, h16, hMAP, hmod]
      exact lt_of_le_of_lt Nat.and_le_right (by norm_num)

/-! ### Checksum lemmas -/

theorem crcInner_eq_iterate : ∀ (j c : Nat), crcInner c j = crcSpecRound^[j] c := by
  intro j
  induction j with
  | zero => intro c; rfl
  | succ k ih =>
      intro c
      rw [crcInner, Function.iterate_succ_apply]
      have hround : (if c &&& 0x0001 > 0 then (c >>> 1) ^^^ 0xA001 else c >>> 1) =
          crcSpecRound c := by
        rw [crcSpecRound]
        simp only [Nat.and_one_is_mod, Nat.shiftRight_one]
        rcases Nat.mod_two_eq_zero_or_one c with he | ho
        · rw [if_neg (by omega), if_neg (by omega)]
        · rw [if_pos (by omega), if_pos (by omega)]
      rw [hround, ih]

theorem crcLoop_eq_foldl : ∀ (l : List Nat) (c : Nat),
    crcLoop c l = l.foldl crcSpecStep c := by
  intro l
  induction l with
  | nil => intro c; rfl
  | cons b rest ih =>
      intro c
      rw [crcLoop, List.foldl_cons, ih]
      congr 1
      rw [crcSpecStep, crcInner_eq_iterate]

theorem crcInner_lt : ∀ (j c : Nat), c < 65536 → crcInner c j < 65536 := by
  intro j
  induction j with
  | zero => intro c hc; exact hc
  | succ k ih =>
      intro c hc
      rw [crcInner]
      apply ih
      split
      · have h1 : c >>> 1 < 65536 := by rw [Nat.shiftRight_one]; omega
        have : (65536 : Nat) = 2 ^ 16 := by norm_num
        rw [this] at h1 ⊢
        exact Nat.xor_lt_two_pow h1 (by norm_num)
      · rw [Nat.shiftRight_one]; omega

theorem crcLoop_lt : ∀ (l : List Nat) (c : Nat), (∀ b ∈ l, b < 65536) → c < 65536 →
    crcLoop c l < 65536 := by
  intro l
  induction l with
  | nil => intro c _ hc; exact hc
  | cons b rest ih =>
      intro c hl hc
      rw [crcLoop]
      apply ih _ (fun x hx => hl x (List.mem_cons_of_mem _ hx))
      apply crcInner_lt
      have hb : b < 65536 := hl b (List.mem_cons_self _ _)
      have h16 : (65536 : Nat) = 2 ^ 16 := by norm_num
      rw [h16] at hb hc ⊢
      exact Nat.xor_lt_two_pow hc hb

theorem crc_lt (l : List Nat) (h : ∀ b ∈ l, b < 65536) : crc l < 65536 :=
  crcLoop_lt l 0xffff h (by norm_num)

/-! ### Buffer invariants -/

/-- Every byte of a (non-panicked) packet buffer is below 256. -/
def allBytes (p : Option (List Nat)) : Prop :=
  ∀ l, p = some l → ∀ b ∈ l, b < 256

theorem allBytes_none : allBytes none := by
  intro l h; cases h

theorem allBytes_store (p : Option (List Nat)) (i v : Nat) (hp : allBytes p) :
    allBytes (store p i v) := by
  intro l h b hb
  match p with
  | none => rw [store_none] at h; cases h
  | some l0 =>
      rw [store_some] at h
      split at h
      · cases h
        rcases List.mem_or_eq_of_mem_set hb with h1 | h1
        · exact hp l0 rfl b h1
        · omega
      · cases h

theorem allBytes_storeList (p : Option (List Nat)) (i : Nat) (ds : List Nat)
    (hp : allBytes p) : allBytes (storeList p i ds) := by
  induction ds generalizing p i with
  | nil => exact hp
  | cons d rest ih => exact ih _ _ (allBytes_store p i d hp)

theorem allBytes_replicate (m : Nat) : allBytes (some (List.replicate m 0)) := by
  intro l h b hb
  cases h
  have := List.eq_of_mem_replicate hb
  omega

/-- The length bound of a (non-panicked) packet buffer. -/
def lenAtMost (p : Option (List Nat)) (L : Nat) : Prop :=
  ∀ l, p = some l → l.length ≤ L

theorem lenAtMost_none (L : Nat) : lenAtMost none L := by
  intro l h; cases h

theorem lenAtMost_store (p : Option (List Nat)) (i v L : Nat) (hp : lenAtMost p L) :
    lenAtMost (store p i v) L := by
  intro l h
  match p with
  | none => rw [store_none] at h; cases h
  | some l0 =>
      rw [store_some] at h
      split at h
      · cases h; rw [List.length_set]; exact hp l0 rfl
      · cases h

theorem lenAtMost_storeList (p : Option (List Nat)) (i : Nat) (ds : List Nat)
    (L : Nat) (hp : lenAtMost p L) : lenAtMost (storeList p i ds) L := by
  induction ds generalizing p i with
  | nil => exact hp
  | cons d rest ih => exact ih _ _ (lenAtMost_store p i d L hp)

theorem lenAtMost_replicate (m L : Nat) (h : m ≤ L) :
    lenAtMost (some (List.replicate m 0)) L := by
  intro l hl
  cases hl
  simpa using h

/-! ### Inversion of the checksum-sealing step -/

theorem take_set_two : ∀ (l : List Nat) (u x y : Nat), u + 1 < l.length →
    ((l.set u x).set (u + 1) y).take (u + 2) = l.take u ++ [x, y] := by
  intro l
  induction l with
  | nil => intro u x y h; simp at h
  | cons a t ih =>
      intro u x y h
      cases u with
      | zero =>
          simp only [List.length_cons] at h
          match t, h with
          | b :: t2, _ => simp [List.set]
      | succ u0 =>
          simp only [List.length_cons] at h
          have := ih u0 x y (by omega)
          simp only [List.set, List.take]
          rw [show u0 + 1 + 1 = u0 + 2 by omega] at this ⊢
          simp [this]

theorem finishCRC_char (packet : List Nat) (u : Nat) (out : List Nat)
    (h : finishCRC (some packet) u = some out) :
    u + 2 ≤ packet.length ∧
      out = packet.take u ++
        [crc (packet.take u) &&& 0xff, (crc (packet.take u) >>> 8) % 256] := by
  rw [finishCRC_some] at h
  cases hs1 : store (some packet) u (crc (packet.take u) &&& 0xff) with
  | none => rw [hs1, store_none, takeBytes_none] at h; cases h
  | some l1 =>
      rw [hs1] at h
      cases hs2 : store (some l1) (u + 1) (crc (packet.take u) >>> 8) with
      | none => rw [hs2, takeBytes_none] at h; cases h
      | some l2 =>
          rw [hs2, takeBytes_some] at h
          rw [store_some] at hs1
          split at hs1
          case isTrue hu =>
            cases hs1
            rw [store_some] at hs2
            split at hs2
            case isTrue hu2 =>
              cases hs2
              rw [List.length_set] at hu2
              refine ⟨by omega, ?_⟩
              cases h
              rw [take_set_two packet u _ _ hu2]
              congr 2
              exact Nat.mod_eq_of_lt (lt_of_le_of_lt Nat.and_le_right (by norm_num))
            case isFalse => cases hs2
          case isFalse => cases hs1

/-! ### Bit and buffer helper lemmas -/

theorem map_mod_id (l : List Nat) (h : ∀ b ∈ l, b < 256) :
    l.map (fun b => b % 256) = l := by
  induction l with
  | nil => rfl
  | cons b rest ih =>
      rw [List.map_cons, ih (fun x hx => h x (List.mem_cons_of_mem _ hx))]
      rw [Nat.mod_eq_of_lt (h b (List.mem_cons_self _ _))]

theorem lor128_and127 (fc : Nat) (h : fc < 128) : (fc ||| 128) &&& 127 = fc := by
  have h127 : (127 : Nat) = 2 ^ 7 - 1 := by norm_num
  rw [h127, Nat.and_pow_two_sub_one_eq_mod]
  apply Nat.eq_of_testBit_eq
  intro i
  rw [Nat.testBit_mod_two_pow, Nat.testBit_lor]
  by_cases hi : i < 7
  · have h128 : (128 : Nat).testBit i = false := by
      have he : (128 : Nat) = 2 ^ 7 := by norm_num
      rw [he, Nat.testBit_two_pow]
      simp only [decide_eq_false_iff_not]
      omega
    simp [hi, h128]
  · have hfc : fc.testBit i = false := by
      apply Nat.testBit_lt_two_pow
      have hpow : (2 : Nat) ^ 7 ≤ 2 ^ i := Nat.pow_le_pow_right (by norm_num) (by omega)
      omega
    simp [hi, hfc]

theorem lor128_ne (fc : Nat) (h : fc < 128) : fc ||| 128 ≠ fc := by
  intro he
  have h1 : (fc ||| 128).testBit 7 = true := by
    rw [Nat.testBit_lor]
    have he2 : (128 : Nat) = 2 ^ 7 := by norm_num
    rw [he2, Nat.testBit_two_pow]
    simp
  rw [he] at h1
  have h2 : fc.testBit 7 = false := Nat.testBit_lt_two_pow (by omega)
  rw [h1] at h2
  cases h2

theorem readCount_eq (t : Transport) (hl : t.received.length ≤ RTU_FRAME_MAXSIZE) :
    readCount t = t.received.length := by
  rw [readCount, List.take_of_length_le hl]

theorem responseBuf_eq (t : Transport) (hb : ∀ b ∈ t.received, b < 256)
    (hl : t.received.length ≤ RTU_FRAME_MAXSIZE) :
    responseBuf t =
      t.received ++ List.replicate (RTU_FRAME_MAXSIZE - t.received.length) 0 := by
  rw [responseBuf]
  simp only [List.take_of_length_le hl, map_mod_id _ hb]

theorem getD_replicate_zero : ∀ (m i : Nat), (List.replicate m 0).getD i 0 = 0 := by
  intro m
  induction m with
  | zero => intro i; simp [List.getD]
  | succ k ih =>
      intro i
      cases i with
      | zero => simp [List.replicate_succ]
      | succ j => simp only [List.replicate_succ, List.getD_cons_succ]; exact ih j

theorem responseBuf_getD (t : Transport) (hb : ∀ b ∈ t.received, b < 256)
    (hl : t.received.length ≤ RTU_FRAME_MAXSIZE) (i : Nat)
    (_hi : i < RTU_FRAME_MAXSIZE) :
    (responseBuf t).getD i 0 = t.received.getD i 0 := by
  rw [responseBuf_eq t hb hl]
  by_cases hil : i < t.received.length
  · exact List.getD_append _ _ _ _ hil
  · rw [List.getD_append_right _ _ _ _ (by omega), getD_replicate_zero]
    rw [List.getD_eq_default]
    omega

theorem finishCRC_length (p : Option (List Nat)) (u L : Nat) (out : List Nat)
    (hp : lenAtMost p L) (h : finishCRC p u = some out) : out.length ≤ L := by
  match p with
  | none => rw [finishCRC_none] at h; cases h
  | some packet =>
      obtain ⟨hle, hout⟩ := finishCRC_char packet u out h
      have hlen : packet.length ≤ L := hp packet rfl
      rw [hout]
      simp only [List.length_append, List.length_take, List.length_cons,
        List.length_nil]
      omega

/-! ### Branch equations for `viaRTU` -/

theorem viaRTU_invalid (debug : Bool) (slaveAddress : Nat) (t : Transport)
    (fnValidator : Nat → Bool) (functionCode startRegister numRegisters : Nat)
    (data : List Nat) (hv : fnValidator functionCode = false) :
    viaRTU debug slaveAddress t fnValidator functionCode startRegister
        numRegisters data =
      { ret := some ([], some (MODBUS_EXCEPTIONS EXCEPTION_ILLEGAL_FUNCTION)),
        io := [], log := [] } := by
  rw [viaRTU, if_neg]
  simp [hv]

theorem viaRTU_gen_panic (debug : Bool) (slaveAddress : Nat) (t : Transport)
    (fnValidator : Nat → Bool) (functionCode startRegister numRegisters : Nat)
    (data : List Nat) (hv : fnValidator functionCode = true)
    (hgen : GenerateRTUFrame
        { SlaveAddress := slaveAddress, FunctionCode := functionCode,
          StartRegister := startRegister, NumberOfRegisters := numRegisters,
          Data := data } = none) :
    viaRTU debug slaveAddress t fnValidator functionCode startRegister
        numRegisters data = { ret := none, io := [], log := [] } := by
  simp only [viaRTU, hv, eq_self_iff_true, if_true, hgen]

theorem viaRTU_write_err (debug : Bool) (slaveAddress : Nat) (t : Transport)
    (fnValidator : Nat → Bool) (functionCode startRegister numRegisters : Nat)
    (data : List Nat) (adu : List Nat) (cause : Nat)
    (hv : fnValidator functionCode = true)
    (hgen : GenerateRTUFrame
        { SlaveAddress := slaveAddress, FunctionCode := functionCode,
          StartRegister := startRegister, NumberOfRegisters := numRegisters,
          Data := data } = some adu)
    (hw : t.writeErr = some cause) :
    viaRTU debug slaveAddress t fnValidator functionCode startRegister
        numRegisters data =
      { ret := some ([], some (.transport cause)), io := [.write adu],
        log := (if debug then ["Tx"] else []) ++
          if debug then ["RTU Write Err"] else [] } := by
  simp only [viaRTU, hv, eq_self_iff_true, if_true, hgen, hw]

theorem viaRTU_read_err (debug : Bool) (slaveAddress : Nat) (t : Transport)
    (fnValidator : Nat → Bool) (functionCode startRegister numRegisters : Nat)
    (data : List Nat) (adu : List Nat) (cause : Nat)
    (hv : fnValidator functionCode = true)
    (hgen : GenerateRTUFrame
        { SlaveAddress := slaveAddress, FunctionCode := functionCode,
          StartRegister := startRegister, NumberOfRegisters := numRegisters,
          Data := data } = some adu)
    (hw : t.writeErr = none) (hr : t.readErr = some cause) :
    viaRTU debug slaveAddress t fnValidator functionCode startRegister
        numRegisters data =
      { ret := some ([], some (.transport cause)), io := [.write adu, .read],
        log := (if debug then ["Tx"] else []) ++
          if debug then ["RTU Read Err"] else [] } := by
  simp only [viaRTU, hv, eq_self_iff_true, if_true, hgen, hw, hr]

theorem viaRTU_run (debug : Bool) (slaveAddress : Nat) (t : Transport)
    (fnValidator : Nat → Bool) (functionCode startRegister numRegisters : Nat)
    (data : List Nat) (adu : List Nat)
    (hv : fnValidator functionCode = true)
    (hgen : GenerateRTUFrame
        { SlaveAddress := slaveAddress, FunctionCode := functionCode,
          StartRegister := startRegister, NumberOfRegisters := numRegisters,
          Data := data } = some adu)
    (hw : t.writeErr = none) (hr : t.readErr = none) :
    viaRTU debug slaveAddress t fnValidator functionCode startRegister
        numRegisters data = classifyResponse debug slaveAddress functionCode t adu := by
  simp only [viaRTU, hv, eq_self_iff_true, if_true, hgen, hw, hr]

/-! ### Claim theorems -/

/-- C2: the checksum is a deterministic, side-effect-free function of the
byte sequence, computing exactly the spec's algorithm (accumulator 0xFFFF,
per byte: XOR into the low byte then 8 shift-and-conditionally-XOR-0xA001
rounds); the checksum of the empty sequence is 0xFFFF. -/
theorem crc_matches_spec :
    (∀ data : List Nat, crc data = crcSpec data) ∧ crc [] = 0xFFFF :=
  ⟨fun data => crcLoop_eq_foldl data 0xffff, rfl⟩

/-- C4: the standard Modbus example request {address 0x11, function 0x03,
start register 0x006B, count 3, empty payload} encodes to exactly
`11 03 00 6B 00 03 76 87` (checksum low byte 0x76, high byte 0x87). -/
theorem generateRTUFrame_standard_example :
    GenerateRTUFrame
        { SlaveAddress := 0x11, FunctionCode := 0x03, StartRegister := 0x006B,
          NumberOfRegisters := 3, Data := [] } =
      some [0x11, 0x03, 0x00, 0x6B, 0x00, 0x03, 0x76, 0x87] := by
  set_option maxRecDepth 10000 in decide

/-- C7: when the function-code predicate rejects the supplied function
code, `viaRTU` returns the illegal-function outcome immediately, performs
no transport I/O, and emits no log line. -/
theorem viaRTU_admission_rejects_without_io (debug : Bool) (slaveAddress : Nat)
    (t : Transport) (fnValidator : Nat → Bool) (functionCode : Nat)
    (startRegister numRegisters : Nat) (data : List Nat)
    (h : fnValidator functionCode = false) :
    viaRTU debug slaveAddress t fnValidator functionCode startRegister
        numRegisters data =
      { ret := some ([], some (MODBUS_EXCEPTIONS EXCEPTION_ILLEGAL_FUNCTION)),
        io := [], log := [] } :=
  viaRTU_invalid debug slaveAddress t fnValidator functionCode startRegister
    numRegisters data h

/-- Witness for C7 at a concrete rejected function code. -/
theorem viaRTU_admission_rejects_without_io_witness :
    (fun _ : Nat => false) 0x03 = false ∧
      viaRTU false 0x11 { writeErr := none, readErr := none, received := [] }
          (fun _ => false) 0x03 0x006B 3 [] =
        { ret := some ([], some (MODBUS_EXCEPTIONS EXCEPTION_ILLEGAL_FUNCTION)),
          io := [], log := [] } :=
  ⟨rfl, viaRTU_admission_rejects_without_io false 0x11 _ _ 0x03 0x006B 3 [] rfl⟩

/-- C8, part analysis: every successfully encoded ADU fits within
`RTU_FRAME_MAXSIZE`; but the codec does not reject or truncate oversized
payloads — a 249-byte payload under the default layout makes the encoder
index past the end of its fixed 256-byte buffer (a runtime panic in the
Go source, `none` here), rather than rejecting or truncating the input. -/
theorem generateRTUFrame_size_bound :
    (∀ (f : RTUFrame) (adu : List Nat), GenerateRTUFrame f = some adu →
      adu.length ≤ RTU_FRAME_MAXSIZE) ∧
    GenerateRTUFrame
        { SlaveAddress := 0x11, FunctionCode := 0x03, StartRegister := 0x006B,
          NumberOfRegisters := 3, Data := List.replicate 249 0 } = none := by
  constructor
  · intro f adu h
    simp only [GenerateRTUFrame] at h
    refine finishCRC_length _ _ _ _ ?_ h
    apply lenAtMost_storeList
    split <;> split <;> dsimp only <;>
      (repeat' apply lenAtMost_store) <;>
      (apply lenAtMost_replicate) <;>
      (split <;> norm_num [RTU_FRAME_MAXSIZE])
  · set_option maxRecDepth 100000 in decide

/-- Witness for C8's universally quantified bound at the standard example
frame. -/
theorem generateRTUFrame_size_bound_witness :
    GenerateRTUFrame
        { SlaveAddress := 0x11, FunctionCode := 0x03, StartRegister := 0x006B,
          NumberOfRegisters := 3, Data := [] } =
      some [0x11, 0x03, 0x00, 0x6B, 0x00, 0x03, 0x76, 0x87] ∧
    ([0x11, 0x03, 0x00, 0x6B, 0x00, 0x03, 0x76, 0x87] : List Nat).length ≤
      RTU_FRAME_MAXSIZE :=
  ⟨by set_option maxRecDepth 10000 in decide,
    generateRTUFrame_size_bound.1
      { SlaveAddress := 0x11, FunctionCode := 0x03, StartRegister := 0x006B,
        NumberOfRegisters := 3, Data := [] }
      [0x11, 0x03, 0x00, 0x6B, 0x00, 0x03, 0x76, 0x87]
      (by set_option maxRecDepth 10000 in decide)⟩

/-- C10: the debug flag only gates logging — for identical inputs and
transport behaviour, the returned bytes/outcome and the transport I/O are
the same whether debugging is on or off. -/
theorem viaRTU_debug_flag_no_effect (slaveAddress : Nat) (t : Transport)
    (fnValidator : Nat → Bool) (functionCode : Nat)
    (startRegister numRegisters : Nat) (data : List Nat) :
    (viaRTU true slaveAddress t fnValidator functionCode startRegister
        numRegisters data).ret =
      (viaRTU false slaveAddress t fnValidator functionCode startRegister
        numRegisters data).ret ∧
    (viaRTU true slaveAddress t fnValidator functionCode startRegister
        numRegisters data).io =
      (viaRTU false slaveAddress t fnValidator functionCode startRegister
        numRegisters data).io := by
  cases hv : fnValidator functionCode
  · rw [viaRTU_invalid true slaveAddress t fnValidator
        functionCode startRegister numRegisters data hv,
      viaRTU_invalid false slaveAddress t fnValidator
        functionCode startRegister numRegisters data hv]
    exact ⟨rfl, rfl⟩
  · cases hg : GenerateRTUFrame
        { SlaveAddress := slaveAddress, FunctionCode := functionCode,
          StartRegister := startRegister, NumberOfRegisters := numRegisters,
          Data := data } with
    | none =>
        rw [viaRTU_gen_panic true slaveAddress t fnValidator functionCode
            startRegister numRegisters data hv hg,
          viaRTU_gen_panic false slaveAddress t fnValidator functionCode
            startRegister numRegisters data hv hg]
        exact ⟨rfl, rfl⟩
    | some adu =>
        cases hw : t.writeErr with
        | some cause =>
            rw [viaRTU_write_err true slaveAddress t fnValidator functionCode
                startRegister numRegisters data adu cause hv hg hw,
              viaRTU_write_err false slaveAddress t fnValidator functionCode
                startRegister numRegisters data adu cause hv hg hw]
            exact ⟨rfl, rfl⟩
        | none =>
            cases hr : t.readErr with
            | some cause =>
                rw [viaRTU_read_err true slaveAddress t fnValidator functionCode
                    startRegister numRegisters data adu cause hv hg hw hr,
                  viaRTU_read_err false slaveAddress t fnValidator functionCode
                    startRegister numRegisters data adu cause hv hg hw hr]
                exact ⟨rfl, rfl⟩
            | none =>
                rw [viaRTU_run true slaveAddress t fnValidator functionCode
                    startRegister numRegisters data adu hv hg hw hr,
                  viaRTU_run false slaveAddress t fnValidator functionCode
                    startRegister numRegisters data adu hv hg hw hr]
                rw [classifyResponse, classifyResponse]
                constructor <;> simp only [] <;> split_ifs <;> rfl

/-- C1: layout selection by function code. For byte-typed fields and a
payload that fits the fixed packet buffer (the data-model invariant):
single-coil / single-register write codes yield a frame with no count
field (payload directly after the start register); the multi-register
write code yields a frame with the count field and a payload-length byte
right before the payload; every other code yields the default layout
`[address][function][start_hi][start_lo][count_hi][count_lo][payload]`,
all 16-bit fields big-endian, followed by the 2-byte checksum. -/
theorem generateRTUFrame_layout_selection (a fc s nr : Nat) (data : List Nat)
    (ha : a < 256) (hfc : fc < 256) (hs : s < 65536) (hnr : nr < 65536)
    (hdata : ∀ b ∈ data, b < 256) :
    ((fc = FUNCTION_WRITE_SINGLE_COIL ∨ fc = FUNCTION_WRITE_SINGLE_REGISTER) →
      data.length + 6 ≤ RTU_FRAME_MAXSIZE →
      GenerateRTUFrame
          { SlaveAddress := a, FunctionCode := fc, StartRegister := s,
            NumberOfRegisters := nr, Data := data } =
        some (([a, fc, s >>> 8, s &&& 0xff] ++ data) ++
          [crc ([a, fc, s >>> 8, s &&& 0xff] ++ data) &&& 0xff,
            crc ([a, fc, s >>> 8, s &&& 0xff] ++ data) >>> 8])) ∧
    (fc = FUNCTION_WRITE_MULTIPLE_REGISTERS →
      data.length + 9 ≤ RTU_FRAME_MAXSIZE →
      GenerateRTUFrame
          { SlaveAddress := a, FunctionCode := fc, StartRegister := s,
            NumberOfRegisters := nr, Data := data } =
        some (([a, fc, s >>> 8, s &&& 0xff, nr >>> 8, nr &&& 0xff,
              data.length] ++ data) ++
          [crc ([a, fc, s >>> 8, s &&& 0xff, nr >>> 8, nr &&& 0xff,
              data.length] ++ data) &&& 0xff,
            crc ([a, fc, s >>> 8, s &&& 0xff, nr >>> 8, nr &&& 0xff,
              data.length] ++ data) >>> 8])) ∧
    (¬(fc = FUNCTION_WRITE_SINGLE_COIL ∨ fc = FUNCTION_WRITE_SINGLE_REGISTER ∨
        fc = FUNCTION_WRITE_MULTIPLE_REGISTERS) →
      data.length + 8 ≤ RTU_FRAME_MAXSIZE →
      GenerateRTUFrame
          { SlaveAddress := a, FunctionCode := fc, StartRegister := s,
            NumberOfRegisters := nr, Data := data } =
        some (([a, fc, s >>> 8, s &&& 0xff, nr >>> 8, nr &&& 0xff] ++ data) ++
          [crc ([a, fc, s >>> 8, s &&& 0xff, nr >>> 8, nr &&& 0xff] ++ data) &&& 0xff,
            crc ([a, fc, s >>> 8, s &&& 0xff, nr >>> 8, nr &&& 0xff] ++ data) >>> 8])) := by
  have hsh : s >>> 8 < 256 := by
    rw [Nat.shiftRight_eq_div_pow]
    apply Nat.div_lt_of_lt_mul
    norm_num
    omega
  have hnrh : nr >>> 8 < 256 := by
    rw [Nat.shiftRight_eq_div_pow]
    apply Nat.div_lt_of_lt_mul
    norm_num
    omega
  have hsl : s &&& 255 < 256 := lt_of_le_of_lt Nat.and_le_right (by norm_num)
  have hnrl : nr &&& 255 < 256 := lt_of_le_of_lt Nat.and_le_right (by norm_num)
  have ha' : a % 256 = a := Nat.mod_eq_of_lt ha
  have hfc' : fc % 256 = fc := Nat.mod_eq_of_lt hfc
  have hsh' : s >>> 8 % 256 = s >>> 8 := Nat.mod_eq_of_lt hsh
  have hnrh' : nr >>> 8 % 256 = nr >>> 8 := Nat.mod_eq_of_lt hnrh
  have hsl' : (s &&& 255) % 256 = s &&& 255 := Nat.mod_eq_of_lt hsl
  have hnrl' : (nr &&& 255) % 256 = nr &&& 255 := Nat.mod_eq_of_lt hnrl
  have hmapdata := map_mod_id data hdata
  refine ⟨?_, ?_, ?_⟩
  · intro hcase hsize
    simp only [RTU_FRAME_MAXSIZE] at hsize
    have h16 : ¬fc = FUNCTION_WRITE_MULTIPLE_REGISTERS := by
      rcases hcase with rfl | rfl <;> decide
    rw [generate_eq_some _ (by
      simp only [bodyOf, packetLenOf, List.length_map, List.length_append, hcase, h16,
        if_true, if_false, List.length_cons, List.length_nil, RTU_FRAME_MAXSIZE]
      split <;> omega)]
    have hbody : ∀ b ∈ (a :: fc :: s >>> 8 :: (s &&& 255) :: data), b < 256 := by
      intro b hb
      rcases List.mem_cons.mp hb with rfl | hb; · exact ha
      rcases List.mem_cons.mp hb with rfl | hb; · exact hfc
      rcases List.mem_cons.mp hb with rfl | hb; · exact hsh
      rcases List.mem_cons.mp hb with rfl | hb; · exact hsl
      exact hdata b hb
    have hcrclt : crc (a :: fc :: s >>> 8 :: (s &&& 255) :: data) < 65536 :=
      crc_lt _ (fun b hb => lt_of_lt_of_le (hbody b hb) (by norm_num))
    have hcrcmask : crc (a :: fc :: s >>> 8 :: (s &&& 255) :: data) >>> 8 % 256 =
        crc (a :: fc :: s >>> 8 :: (s &&& 255) :: data) >>> 8 := by
      apply Nat.mod_eq_of_lt
      rw [Nat.shiftRight_eq_div_pow]
      apply Nat.div_lt_of_lt_mul
      norm_num
      omega
    simp [aduOf, bodyOf, hcase, h16, ha', hfc', hsh', hsl', hmapdata, hcrcmask]
  · intro hcase hsize
    subst hcase
    simp only [RTU_FRAME_MAXSIZE] at hsize
    have h56 : ¬(FUNCTION_WRITE_MULTIPLE_REGISTERS = FUNCTION_WRITE_SINGLE_COIL ∨
        FUNCTION_WRITE_MULTIPLE_REGISTERS = FUNCTION_WRITE_SINGLE_REGISTER) := by decide
    have hdl : data.length % 256 = data.length := Nat.mod_eq_of_lt (by omega)
    have hblen : (bodyOf
        { SlaveAddress := a, FunctionCode := FUNCTION_WRITE_MULTIPLE_REGISTERS,
          StartRegister := s, NumberOfRegisters := nr,
          Data := data }).length = 7 + data.length := by
      simp [bodyOf, h56]
      try omega
    rw [generate_eq_some _ (by
      rw [hblen, packetLenOf]
      simp only [RTU_FRAME_MAXSIZE]
      split <;> omega)]
    have hbody : ∀ b ∈ (a :: FUNCTION_WRITE_MULTIPLE_REGISTERS :: s >>> 8 ::
        (s &&& 255) :: nr >>> 8 :: (nr &&& 255) :: data.length :: data), b < 256 := by
      intro b hb
      rcases List.mem_cons.mp hb with rfl | hb; · exact ha
      rcases List.mem_cons.mp hb with rfl | hb; · exact hfc
      rcases List.mem_cons.mp hb with rfl | hb; · exact hsh
      rcases List.mem_cons.mp hb with rfl | hb; · exact hsl
      rcases List.mem_cons.mp hb with rfl | hb; · exact hnrh
      rcases List.mem_cons.mp hb with rfl | hb; · exact hnrl
      rcases List.mem_cons.mp hb with rfl | hb; · omega
      exact hdata b hb
    have hcrclt : crc (a :: FUNCTION_WRITE_MULTIPLE_REGISTERS :: s >>> 8 ::
        (s &&& 255) :: nr >>> 8 :: (nr &&& 255) :: data.length :: data) < 65536 :=
      crc_lt _ (fun b hb => lt_of_lt_of_le (hbody b hb) (by norm_num))
    have hcrcmask : crc (a :: FUNCTION_WRITE_MULTIPLE_REGISTERS :: s >>> 8 ::
          (s &&& 255) :: nr >>> 8 :: (nr &&& 255) :: data.length :: data) >>> 8 % 256 =
        crc (a :: FUNCTION_WRITE_MULTIPLE_REGISTERS :: s >>> 8 ::
          (s &&& 255) :: nr >>> 8 :: (nr &&& 255) :: data.length :: data) >>> 8 := by
      apply Nat.mod_eq_of_lt
      rw [Nat.shiftRight_eq_div_pow]
      apply Nat.div_lt_of_lt_mul
      norm_num
      omega
    simp [aduOf, bodyOf, h56, ha', hfc', hsh', hsl', hnrh', hnrl', hdl,
      hmapdata, hcrcmask]
  · intro hcase hsize
    simp only [RTU_FRAME_MAXSIZE] at hsize
    push_neg at hcase
    obtain ⟨h5, h6, h16⟩ := hcase
    rw [generate_eq_some _ (by
      simp only [bodyOf, packetLenOf, List.length_map, List.length_append, h5, h6, h16,
        or_self, if_true, if_false, List.length_cons, List.length_nil,
        RTU_FRAME_MAXSIZE]
      split <;> omega)]
    have hbody : ∀ b ∈ (a :: fc :: s >>> 8 :: (s &&& 255) :: nr >>> 8 ::
        (nr &&& 255) :: data), b < 256 := by
      intro b hb
      rcases List.mem_cons.mp hb with rfl | hb; · exact ha
      rcases List.mem_cons.mp hb with rfl | hb; · exact hfc
      rcases List.mem_cons.mp hb with rfl | hb; · exact hsh
      rcases List.mem_cons.mp hb with rfl | hb; · exact hsl
      rcases List.mem_cons.mp hb with rfl | hb; · exact hnrh
      rcases List.mem_cons.mp hb with rfl | hb; · exact hnrl
      exact hdata b hb
    have hcrclt : crc (a :: fc :: s >>> 8 :: (s &&& 255) :: nr >>> 8 ::
        (nr &&& 255) :: data) < 65536 :=
      crc_lt _ (fun b hb => lt_of_lt_of_le (hbody b hb) (by norm_num))
    have hcrcmask : crc (a :: fc :: s >>> 8 :: (s &&& 255) :: nr >>> 8 ::
          (nr &&& 255) :: data) >>> 8 % 256 =
        crc (a :: fc :: s >>> 8 :: (s &&& 255) :: nr >>> 8 ::
          (nr &&& 255) :: data) >>> 8 := by
      apply Nat.mod_eq_of_lt
      rw [Nat.shiftRight_eq_div_pow]
      apply Nat.div_lt_of_lt_mul
      norm_num
      omega
    simp [aduOf, bodyOf, h5, h6, h16, ha', hfc', hsh', hsl', hnrh', hnrl',
      hmapdata, hcrcmask]

/-- Witness for C1 at a concrete single-coil write frame. -/
theorem generateRTUFrame_layout_selection_witness :
    GenerateRTUFrame
        { SlaveAddress := 0x11, FunctionCode := 0x05, StartRegister := 0x006B,
          NumberOfRegisters := 3, Data := [0xAB, 0xCD] } =
      some (([0x11, 0x05, 0x006B >>> 8, 0x006B &&& 0xff] ++ [0xAB, 0xCD]) ++
        [crc ([0x11, 0x05, 0x006B >>> 8, 0x006B &&& 0xff] ++ [0xAB, 0xCD]) &&& 0xff,
          crc ([0x11, 0x05, 0x006B >>> 8, 0x006B &&& 0xff] ++ [0xAB, 0xCD]) >>> 8]) :=
  (generateRTUFrame_layout_selection 0x11 0x05 0x006B 3 [0xAB, 0xCD]
    (by decide) (by decide) (by decide) (by decide) (by decide)).1
    (by decide) (by decide)

/-- The round-trip property holds of any `finishCRC` output over a
byte-valued packet. -/
theorem roundtrip_of_finishCRC (p : Option (List Nat)) (u : Nat) (adu : List Nat)
    (hbytes : allBytes p) (h : finishCRC p u = some adu) :
    adu.drop (adu.length - 2) =
      [crc (adu.take (adu.length - 2)) &&& 0xff,
        crc (adu.take (adu.length - 2)) >>> 8] := by
  match p with
  | none => rw [finishCRC_none] at h; cases h
  | some packet =>
      obtain ⟨hle, hout⟩ := finishCRC_char packet u adu h
      have hplen : ∀ b ∈ packet, b < 256 := hbytes packet rfl
      have htlen : (packet.take u).length = u := by
        rw [List.length_take]; omega
      have hlen : adu.length = u + 2 := by
        rw [hout]
        simp only [List.length_append, List.length_cons, List.length_nil, htlen]
      have hcrclt : crc (packet.take u) < 65536 :=
        crc_lt _ (fun b hb =>
          lt_of_lt_of_le (hplen b (List.take_subset u packet hb)) (by norm_num))
      have hmask : crc (packet.take u) >>> 8 % 256 = crc (packet.take u) >>> 8 := by
        apply Nat.mod_eq_of_lt
        rw [Nat.shiftRight_eq_div_pow]
        apply Nat.div_lt_of_lt_mul
        norm_num
        omega
      have h2 : adu.length - 2 = u := by omega
      rw [h2, hout, List.drop_left' htlen, List.take_left' htlen, hmask]

/-- C3: for every request frame the codec encodes at all, re-deriving the
checksum over all but the last two ADU bytes reproduces the trailing two
bytes exactly, low byte first, high byte second. -/
theorem generateRTUFrame_crc_roundtrip (f : RTUFrame) (adu : List Nat)
    (h : GenerateRTUFrame f = some adu) :
    adu.drop (adu.length - 2) =
      [crc (adu.take (adu.length - 2)) &&& 0xff,
        crc (adu.take (adu.length - 2)) >>> 8] := by
  simp only [GenerateRTUFrame] at h
  refine roundtrip_of_finishCRC _ _ _ ?_ h
  apply allBytes_storeList
  split <;> split <;> dsimp only <;>
    (repeat' apply allBytes_store) <;>
    exact allBytes_replicate _

/-- Witness for C3 at the standard example frame. -/
theorem generateRTUFrame_crc_roundtrip_witness :
    GenerateRTUFrame
        { SlaveAddress := 0x11, FunctionCode := 0x03, StartRegister := 0x006B,
          NumberOfRegisters := 3, Data := [] } =
      some [0x11, 0x03, 0x00, 0x6B, 0x00, 0x03, 0x76, 0x87] ∧
    ([0x11, 0x03, 0x00, 0x6B, 0x00, 0x03, 0x76, 0x87] : List Nat).drop
        (([0x11, 0x03, 0x00, 0x6B, 0x00, 0x03, 0x76, 0x87] : List Nat).length - 2) =
      [crc (([0x11, 0x03, 0x00, 0x6B, 0x00, 0x03, 0x76, 0x87] : List Nat).take
          (([0x11, 0x03, 0x00, 0x6B, 0x00, 0x03, 0x76, 0x87] : List Nat).length - 2)) &&& 0xff,
        crc (([0x11, 0x03, 0x00, 0x6B, 0x00, 0x03, 0x76, 0x87] : List Nat).take
          (([0x11, 0x03, 0x00, 0x6B, 0x00, 0x03, 0x76, 0x87] : List Nat).length - 2)) >>> 8] :=
  ⟨by set_option maxRecDepth 10000 in decide,
    generateRTUFrame_crc_roundtrip
      { SlaveAddress := 0x11, FunctionCode := 0x03, StartRegister := 0x006B,
        NumberOfRegisters := 3, Data := [] }
      [0x11, 0x03, 0x00, 0x6B, 0x00, 0x03, 0x76, 0x87]
      (by set_option maxRecDepth 10000 in decide)⟩

/-- C6: when the response echoes the request's address and function code
but its trailing two bytes do not match the checksum recomputed over the
earlier bytes (low byte first), the outcome is the bad-checksum exception
and the full received byte sequence is still returned to the caller. -/
theorem viaRTU_bad_checksum_returns_bytes (debug : Bool) (slaveAddress : Nat)
    (t : Transport) (fnValidator : Nat → Bool)
    (functionCode startRegister numRegisters : Nat) (data adu : List Nat)
    (hv : fnValidator functionCode = true)
    (hgen : GenerateRTUFrame
        { SlaveAddress := slaveAddress, FunctionCode := functionCode,
          StartRegister := startRegister, NumberOfRegisters := numRegisters,
          Data := data } = some adu)
    (hw : t.writeErr = none) (hr : t.readErr = none)
    (hb : ∀ b ∈ t.received, b < 256)
    (hlen : t.received.length ≤ RTU_FRAME_MAXSIZE)
    (hn : 2 ≤ t.received.length)
    (h0 : t.received.getD 0 0 = slaveAddress)
    (h1 : t.received.getD 1 0 = functionCode)
    (hcrc : ¬(t.received.getD (t.received.length - 2) 0 =
          crc (t.received.take (t.received.length - 2)) &&& 0xff ∧
        t.received.getD (t.received.length - 1) 0 =
          crc (t.received.take (t.received.length - 2)) >>> 8)) :
    (viaRTU debug slaveAddress t fnValidator functionCode startRegister
        numRegisters data).ret =
      some (t.received, some (MODBUS_EXCEPTIONS EXCEPTION_BAD_CHECKSUM)) := by
  rw [viaRTU_run debug slaveAddress t fnValidator functionCode startRegister
    numRegisters data adu hv hgen hw hr]
  have hgd : ∀ i, i < RTU_FRAME_MAXSIZE →
      (responseBuf t).getD i 0 = t.received.getD i 0 :=
    fun i hi => responseBuf_getD t hb hlen i hi
  have hM : t.received.length ≤ 256 := by
    simpa only [RTU_FRAME_MAXSIZE] using hlen
  have e0 : (responseBuf t).getD 0 0 = slaveAddress :=
    (hgd 0 (by simp only [RTU_FRAME_MAXSIZE]; omega)).trans h0
  have e1 : (responseBuf t).getD 1 0 = functionCode :=
    (hgd 1 (by simp only [RTU_FRAME_MAXSIZE]; omega)).trans h1
  have e2 : (responseBuf t).getD (t.received.length - 2) 0 =
      t.received.getD (t.received.length - 2) 0 :=
    hgd _ (by simp only [RTU_FRAME_MAXSIZE]; omega)
  have e3 : (responseBuf t).getD (t.received.length - 1) 0 =
      t.received.getD (t.received.length - 1) 0 :=
    hgd _ (by simp only [RTU_FRAME_MAXSIZE]; omega)
  have etake : (responseBuf t).take (t.received.length - 2) =
      t.received.take (t.received.length - 2) := by
    rw [responseBuf_eq t hb hlen]
    exact List.take_append_of_le_length (by omega)
  have etaken : (responseBuf t).take t.received.length = t.received := by
    rw [responseBuf_eq t hb hlen]
    exact List.take_left' rfl
  have hnlt : ¬(t.received.length < 2) := by omega
  simp only [classifyResponse, readCount_eq t hlen, e0, e1, e2, e3, etake, etaken]
  rw [if_neg (by simp), if_neg hnlt, if_pos (not_and_or.mp hcrc)]

/-- Witness for C6 at a concrete corrupted-checksum response. -/
theorem viaRTU_bad_checksum_returns_bytes_witness :
    (viaRTU false 0x11
        { writeErr := none, readErr := none, received := [0x11, 0x03, 0xAA, 0, 0] }
        (fun _ => true) 0x03 0x006B 3 []).ret =
      some ([0x11, 0x03, 0xAA, 0, 0], some (MODBUS_EXCEPTIONS EXCEPTION_BAD_CHECKSUM)) :=
  viaRTU_bad_checksum_returns_bytes false 0x11
    { writeErr := none, readErr := none, received := [0x11, 0x03, 0xAA, 0, 0] }
    (fun _ => true) 0x03 0x006B 3 [] [0x11, 0x03, 0x00, 0x6B, 0x00, 0x03, 0x76, 0x87]
    rfl (by set_option maxRecDepth 10000 in decide) rfl rfl (by decide) (by decide)
    (by decide) (by decide) (by decide) (by decide)

/-- C5 (amended with the high-bit-clear hypothesis): for a request whose
function code has its high bit clear, a response echoing the slave address
with the function code's high bit set is interpreted as an exception reply:
its third byte selects illegal function (0x01), illegal data address
(0x02), illegal data value (0x03) or slave device failure (0x04), any
other value giving the generic unspecified exception; and a response whose
first byte differs from the slave address always yields the generic
unspecified exception, never a silent success. -/
theorem viaRTU_exception_mapping (debug : Bool) (slaveAddress : Nat)
    (t : Transport) (fnValidator : Nat → Bool)
    (functionCode startRegister numRegisters : Nat) (data adu : List Nat)
    (hv : fnValidator functionCode = true)
    (hgen : GenerateRTUFrame
        { SlaveAddress := slaveAddress, FunctionCode := functionCode,
          StartRegister := startRegister, NumberOfRegisters := numRegisters,
          Data := data } = some adu)
    (hw : t.writeErr = none) (hr : t.readErr = none)
    (hb : ∀ b ∈ t.received, b < 256)
    (hlen : t.received.length ≤ RTU_FRAME_MAXSIZE)
    (hfc80 : functionCode < 0x80) :
    ((t.received.getD 0 0 = slaveAddress ∧
        t.received.getD 1 0 = functionCode ||| 0x80) →
      (viaRTU debug slaveAddress t fnValidator functionCode startRegister
          numRegisters data).ret =
        some ([], some
          (if t.received.getD 2 0 = EXCEPTION_ILLEGAL_FUNCTION then
            ModbusError.illegalFunction
          else if t.received.getD 2 0 = EXCEPTION_DATA_ADDRESS then
            ModbusError.dataAddress
          else if t.received.getD 2 0 = EXCEPTION_DATA_VALUE then
            ModbusError.dataValue
          else if t.received.getD 2 0 = EXCEPTION_SLAVE_DEVICE_FAILURE then
            ModbusError.slaveDeviceFailure
          else ModbusError.unspecified))) ∧
    (t.received.getD 0 0 ≠ slaveAddress →
      (viaRTU debug slaveAddress t fnValidator functionCode startRegister
          numRegisters data).ret =
        some ([], some ModbusError.unspecified)) := by
  have hgd : ∀ i, i < RTU_FRAME_MAXSIZE →
      (responseBuf t).getD i 0 = t.received.getD i 0 :=
    fun i hi => responseBuf_getD t hb hlen i hi
  have e0 : (responseBuf t).getD 0 0 = t.received.getD 0 0 :=
    hgd 0 (by simp only [RTU_FRAME_MAXSIZE]; omega)
  have e1 : (responseBuf t).getD 1 0 = t.received.getD 1 0 :=
    hgd 1 (by simp only [RTU_FRAME_MAXSIZE]; omega)
  have e2 : (responseBuf t).getD 2 0 = t.received.getD 2 0 :=
    hgd 2 (by simp only [RTU_FRAME_MAXSIZE]; omega)
  constructor
  · rintro ⟨h0, h1⟩
    rw [viaRTU_run debug slaveAddress t fnValidator functionCode startRegister
      numRegisters data adu hv hgen hw hr]
    simp only [classifyResponse, e0, e1, e2, h0, h1]
    rw [if_pos (Or.inr (lor128_ne functionCode hfc80))]
    rw [if_pos ⟨trivial, lor128_and127 functionCode hfc80⟩]
    split_ifs <;> rfl
  · intro hne
    rw [viaRTU_run debug slaveAddress t fnValidator functionCode startRegister
      numRegisters data adu hv hgen hw hr]
    simp only [classifyResponse, e0, e1, e2]
    rw [if_pos (Or.inl hne), if_neg (fun hc => hne hc.1)]
    rfl

/-- Witness for C5 at a concrete illegal-data-address exception reply and
a concrete address-mismatched reply. -/
theorem viaRTU_exception_mapping_witness :
    (viaRTU false 0x11
        { writeErr := none, readErr := none, received := [0x11, 0x83, 0x02] }
        (fun _ => true) 0x03 0x006B 3 []).ret =
      some ([], some
        (if (0x02 : Nat) = EXCEPTION_ILLEGAL_FUNCTION then
          ModbusError.illegalFunction
        else if (0x02 : Nat) = EXCEPTION_DATA_ADDRESS then ModbusError.dataAddress
        else if (0x02 : Nat) = EXCEPTION_DATA_VALUE then ModbusError.dataValue
        else if (0x02 : Nat) = EXCEPTION_SLAVE_DEVICE_FAILURE then
          ModbusError.slaveDeviceFailure
        else ModbusError.unspecified)) ∧
    (viaRTU false 0x11
        { writeErr := none, readErr := none, received := [0x22, 0x83, 0x02] }
        (fun _ => true) 0x03 0x006B 3 []).ret =
      some ([], some ModbusError.unspecified) := by
  constructor
  · exact (viaRTU_exception_mapping false 0x11
      { writeErr := none, readErr := none, received := [0x11, 0x83, 0x02] }
      (fun _ => true) 0x03 0x006B 3 [] [0x11, 0x03, 0x00, 0x6B, 0x00, 0x03, 0x76, 0x87]
      rfl (by set_option maxRecDepth 10000 in decide) rfl rfl (by decide) (by decide)
      (by decide)).1 (by decide)
  · exact (viaRTU_exception_mapping false 0x11
      { writeErr := none, readErr := none, received := [0x22, 0x83, 0x02] }
      (fun _ => true) 0x03 0x006B 3 [] [0x11, 0x03, 0x00, 0x6B, 0x00, 0x03, 0x76, 0x87]
      rfl (by set_option maxRecDepth 10000 in decide) rfl rfl (by decide) (by decide)
      (by decide)).2 (by decide)

/-- Counterexample to C5 as literally stated: if the request's function
code already has its high bit set (functionCode 0x81, admitted by a
permissive predicate), a response echoing `[address, functionCode ||| 0x80]`
with a valid checksum passes the address/function match and is returned as
a silent success — the third byte is never mapped through the exception
table. -/
theorem viaRTU_exception_mapping_counterexample :
    (0x11 : Nat) = 0x11 ∧ (0x81 : Nat) = 0x81 ||| 0x80 ∧
    (viaRTU false 0x11
        { writeErr := none, readErr := none,
          received := [0x11, 0x81, 0xCD, 0x80] }
        (fun _ => true) 0x81 0x006B 3 []).ret =
      some ([0x11, 0x81, 0xCD, 0x80], none) := by
  refine ⟨rfl, by decide, ?_⟩
  set_option maxRecDepth 10000 in decide

/-- C9: when address, function code and checksum all validate, `viaRTU`
returns exactly the `n` received bytes with no error; and every error
outcome other than the bad-checksum exception returns an empty byte
sequence. -/
theorem viaRTU_success_bytes_and_error_empty (debug : Bool) (slaveAddress : Nat)
    (t : Transport) (fnValidator : Nat → Bool)
    (functionCode startRegister numRegisters : Nat) (data : List Nat) :
    ((∀ adu, fnValidator functionCode = true →
      GenerateRTUFrame
          { SlaveAddress := slaveAddress, FunctionCode := functionCode,
            StartRegister := startRegister, NumberOfRegisters := numRegisters,
            Data := data } = some adu →
      t.writeErr = none → t.readErr = none →
      (∀ b ∈ t.received, b < 256) →
      t.received.length ≤ RTU_FRAME_MAXSIZE →
      2 ≤ t.received.length →
      t.received.getD 0 0 = slaveAddress →
      t.received.getD 1 0 = functionCode →
      t.received.getD (t.received.length - 2) 0 =
        crc (t.received.take (t.received.length - 2)) &&& 0xff →
      t.received.getD (t.received.length - 1) 0 =
        crc (t.received.take (t.received.length - 2)) >>> 8 →
      (viaRTU debug slaveAddress t fnValidator functionCode startRegister
          numRegisters data).ret = some (t.received, none))) ∧
    (∀ bs e,
      (viaRTU debug slaveAddress t fnValidator functionCode startRegister
          numRegisters data).ret = some (bs, some e) →
      e ≠ MODBUS_EXCEPTIONS EXCEPTION_BAD_CHECKSUM → bs = []) := by
  constructor
  · intro adu hv hgen hw hr hb hlen hn h0 h1 hlo hhi
    rw [viaRTU_run debug slaveAddress t fnValidator functionCode startRegister
      numRegisters data adu hv hgen hw hr]
    have hgd : ∀ i, i < RTU_FRAME_MAXSIZE →
        (responseBuf t).getD i 0 = t.received.getD i 0 :=
      fun i hi => responseBuf_getD t hb hlen i hi
    have hM : t.received.length ≤ 256 := by
      simpa only [RTU_FRAME_MAXSIZE] using hlen
    have e0 : (responseBuf t).getD 0 0 = slaveAddress :=
      (hgd 0 (by simp only [RTU_FRAME_MAXSIZE]; omega)).trans h0
    have e1 : (responseBuf t).getD 1 0 = functionCode :=
      (hgd 1 (by simp only [RTU_FRAME_MAXSIZE]; omega)).trans h1
    have e2 : (responseBuf t).getD (t.received.length - 2) 0 =
        t.received.getD (t.received.length - 2) 0 :=
      hgd _ (by simp only [RTU_FRAME_MAXSIZE]; omega)
    have e3 : (responseBuf t).getD (t.received.length - 1) 0 =
        t.received.getD (t.received.length - 1) 0 :=
      hgd _ (by simp only [RTU_FRAME_MAXSIZE]; omega)
    have etake : (responseBuf t).take (t.received.length - 2) =
        t.received.take (t.received.length - 2) := by
      rw [responseBuf_eq t hb hlen]
      exact List.take_append_of_le_length (by omega)
    have etaken : (responseBuf t).take t.received.length = t.received := by
      rw [responseBuf_eq t hb hlen]
      exact List.take_left' rfl
    have hnlt : ¬(t.received.length < 2) := by omega
    simp only [classifyResponse, readCount_eq t hlen, e0, e1, e2, e3, etake, etaken]
    rw [if_neg (by simp), if_neg hnlt,
      if_neg (not_or.mpr ⟨not_not_intro hlo, not_not_intro hhi⟩)]
  · intro bs e heq hne
    cases hvv : fnValidator functionCode with
    | false =>
        rw [viaRTU_invalid debug slaveAddress t fnValidator
          functionCode startRegister numRegisters data hvv] at heq
        simp only [Option.some.injEq, Prod.mk.injEq] at heq
        exact heq.1.symm
    | true =>
        cases hgg : GenerateRTUFrame
            { SlaveAddress := slaveAddress, FunctionCode := functionCode,
              StartRegister := startRegister, NumberOfRegisters := numRegisters,
              Data := data } with
        | none =>
            rw [viaRTU_gen_panic debug slaveAddress t fnValidator functionCode
              startRegister numRegisters data hvv hgg] at heq
            exact Option.noConfusion heq
        | some adu =>
            cases hww : t.writeErr with
            | some cause =>
                rw [viaRTU_write_err debug slaveAddress t fnValidator functionCode
                  startRegister numRegisters data adu cause hvv hgg hww] at heq
                simp only [Option.some.injEq, Prod.mk.injEq] at heq
                exact heq.1.symm
            | none =>
                cases hrr : t.readErr with
                | some cause =>
                    rw [viaRTU_read_err debug slaveAddress t fnValidator functionCode
                      startRegister numRegisters data adu cause hvv hgg hww hrr] at heq
                    simp only [Option.some.injEq, Prod.mk.injEq] at heq
                    exact heq.1.symm
                | none =>
                    rw [viaRTU_run debug slaveAddress t fnValidator functionCode
                      startRegister numRegisters data adu hvv hgg hww hrr] at heq
                    simp only [classifyResponse] at heq
                    split_ifs at heq <;>
                      first
                        | exact Option.noConfusion heq
                        | (simp only [Option.some.injEq, Prod.mk.injEq] at heq
                           exact heq.1.symm)
                        | (simp only [Option.some.injEq, Prod.mk.injEq] at heq
                           exact absurd heq.2.symm (Option.some_ne_none e).elim)
                        | (simp only [Option.some.injEq, Prod.mk.injEq] at heq
                           exact absurd heq.2.symm hne)

/-- Witness for C9: a fully valid concrete transaction returns exactly the
received bytes, and a concrete address-mismatch transaction returns empty
bytes with its non-checksum error. -/
theorem viaRTU_success_bytes_and_error_empty_witness :
    (viaRTU false 0x11
        { writeErr := none, readErr := none, received := [0x11, 0x03, 0x4D, 0xE1] }
        (fun _ => true) 0x03 0x006B 3 []).ret =
      some ([0x11, 0x03, 0x4D, 0xE1], none) ∧
    ([] : List Nat) = [] :=
  ⟨(viaRTU_success_bytes_and_error_empty false 0x11
      { writeErr := none, readErr := none, received := [0x11, 0x03, 0x4D, 0xE1] }
      (fun _ => true) 0x03 0x006B 3 []).1
      [0x11, 0x03, 0x00, 0x6B, 0x00, 0x03, 0x76, 0x87]
      rfl (by set_option maxRecDepth 10000 in decide) rfl rfl (by decide) (by decide)
      (by decide) (by decide) (by decide) (by decide) (by decide),
    (viaRTU_success_bytes_and_error_empty false 0x11
      { writeErr := none, readErr := none, received := [0x22, 0x83, 0x02] }
      (fun _ => true) 0x03 0x006B 3 []).2
      [] ModbusError.unspecified
      (by set_option maxRecDepth 10000 in decide) (by decide)⟩

end ModbusClient
